import Mathlib

/-!
Verification development for the Guardian scan-workflow app
(`src/TheGuardian/app.py`).

The app is a three-stage UI workflow (Upload, Processing, Results) around a
black-box object detector.  We embed the pure content of the Python code:

* `load_model` — weights selection at startup (the filesystem check
  `WEIGHTS.exists()` becomes a boolean parameter);
* `_run_detection` — the detect handler: validation of a missing image,
  the fixed progress checkpoints, the construction of the detections table,
  the status string, and the timestamped output file name;
* `reset_all`, `go_processing` / `go_results` / `go_upload` and the click
  wiring of `detect_btn` and `new_btn` on an explicit UI-state record.

Wall-clock time is modelled by rational parameters: `t0` is the value of
`time.time()` at the start of a run, `inferTime ≥ 0` is the time spent in
the detector call, `saveGap ≥ 0` the time between the elapsed-time
measurement and the `time.time()` call used for the file name.  The five
`time.sleep(0.2)` calls advance the clock by `5 * (2/10)`.  Python's
`int()` on a non-negative float is `Int.floor`.  The external detector is a
parameter `model : Img → DetectorResult` returning the label table
(`results[0].names`), the boxes (`results[0].boxes`, `none` standing for
Python `None`) and the annotated image (`results[0].plot()`).
-/

namespace Guardian

/-- Images are opaque tokens: the code never inspects pixel data itself. -/
abbrev Img := ℕ

/-- One detected box, as read off `results[0].boxes`: `int(b.cls[0])` and
`float(b.conf[0])`. -/
structure Box where
  cls : ℕ
  conf : ℚ
deriving DecidableEq, Repr

/-- The label table `results[0].names`, a Python dict from class id to
label, embedded as an association list with unique keys. -/
abbrev Names := List (ℕ × String)

/-- What one call of the black-box detector yields: `results[0].names`,
`results[0].boxes` (`none` for Python `None`), `results[0].plot()`. -/
structure DetectorResult where
  names : Names
  boxes : Option (List Box)
  annotated : Img
deriving DecidableEq, Repr

/-- The output file name `f"guardian_result_X.png"` where `X` is
`int(time.time())`, kept in its three parts (fixed stem, timestamp,
extension) so that two names are equal iff their parts are. -/
structure OutName where
  stem : String
  ts : ℤ
  ext : String
deriving DecidableEq, Repr

/-- `Path("weights") / "best.pt"` relative to the app root (the `ROOT`
filesystem prefix is elided). -/
def WEIGHTS : String := "weights/best.pt"

/-- `load_model` (app.py lines 13–20).  The filesystem check
`WEIGHTS.exists()` is passed in as a boolean.  Returns the weights path
handed to `YOLO(...)` and the recorded `mode` status string. -/
def load_model (weightsExists : Bool) : String × String :=
  if weightsExists then
    (WEIGHTS, "✅ Using local model: weights/best.pt")
  else
    ("yolov8n.pt", "⚠️ Demo mode: weights/best.pt not found. Falling back to yolov8n.pt")

/-- Round-half-to-even, the tie rule of Python float formatting. -/
def roundHalfEven (q : ℚ) : ℤ :=
  if q - ⌊q⌋ < 1 / 2 then ⌊q⌋
  else if 1 / 2 < q - ⌊q⌋ then ⌊q⌋ + 1
  else if ⌊q⌋ % 2 = 0 then ⌊q⌋ else ⌊q⌋ + 1

/-- Python `f"{x:.1f}"` for non-negative `x`: `x` rounded to one decimal,
an integer part, a dot, and one digit. -/
def fmtFixed1 (x : ℚ) : String :=
  toString ((roundHalfEven (x * 10)).toNat / 10) ++ "."
    ++ toString ((roundHalfEven (x * 10)).toNat % 10)

/-- Python `f"{x:.2f}"` for non-negative `x`. -/
def fmtFixed2 (x : ℚ) : String :=
  toString ((roundHalfEven (x * 100)).toNat / 100) ++ "."
    ++ (if (roundHalfEven (x * 100)).toNat % 100 < 10 then "0" else "")
    ++ toString ((roundHalfEven (x * 100)).toNat % 100)

/-- The confidence cell `f"{conf*100:.1f}%"` (app.py line 82). -/
def formatPct (conf : ℚ) : String :=
  fmtFixed1 (conf * 100) ++ "%"

/-- `names.get(cls_id, str(cls_id))` (app.py line 81): dict lookup with
fallback to the numeric id rendered as a string. -/
def labelOf (names : Names) (clsId : ℕ) : String :=
  match names.lookup clsId with
  | some l => l
  | none => toString clsId

/-- The table construction of app.py lines 76–84: one row per box when
`results[0].boxes is not None and len(results[0].boxes) > 0`, otherwise the
sentinel row. -/
def rows_of (names : Names) (boxes : Option (List Box)) : List (List String) :=
  match boxes with
  | some bs =>
      if bs.length > 0 then
        bs.map (fun b => [labelOf names b.cls, formatPct b.conf])
      else [["None", "—"]]
  | none => [["None", "—"]]

/-- The progress checkpoints of the `for p, msg in [...]` loop
(app.py lines 64–68). -/
def progressSteps : List (ℚ × String) :=
  [(15 / 100, "Pre-processing…"),
   (35 / 100, "Running inference…"),
   (55 / 100, "Extracting detections…"),
   (75 / 100, "Rendering bounding boxes…"),
   (90 / 100, "Finalizing output…")]

/-- The value of `time.time()` at app.py line 93, in terms of the start
time: the five `time.sleep(0.2)` calls plus the detector time elapse before
the line-86 measurement, and `saveGap` more before line 93. -/
def save_time (t0 inferTime saveGap : ℚ) : ℚ :=
  t0 + 5 * (2 / 10) + inferTime + saveGap

/-- Everything `_run_detection` produces: the five returned values
(app.py lines 59 and 97), the progress events it emitted in order, and the
files it wrote. -/
structure RunOutput where
  prog : ℚ
  outImg : Option Img
  rows : List (List String)
  meta : String
  download : Option OutName
  events : List (ℚ × String)
  writes : List OutName
deriving DecidableEq, Repr

/-- `_run_detection` (app.py lines 57–97).  `MODEL_MODE` is the status
string of the loaded model; `model` the black-box detector; `t0` the value
of `time.time()` at line 62; `inferTime` the wall-clock time of the
detector call; `saveGap` the time between lines 86 and 93. -/
def _run_detection (MODEL_MODE : String) (model : Img → DetectorResult)
    (t0 inferTime saveGap : ℚ) (image : Option Img) : RunOutput :=
  match image with
  | none =>
      { prog := 0, outImg := none, rows := [], meta := "Please upload an image first.",
        download := none, events := [], writes := [] }
  | some img =>
      let res := model img
      let rows := rows_of res.names res.boxes
      let elapsed := (t0 + 5 * (2 / 10) + inferTime) - t0
      let meta := MODEL_MODE ++ "\n"
        ++ "Processed in " ++ fmtFixed2 elapsed ++ "s\n"
        ++ "Privacy: Uploads are processed on demand and not stored permanently."
      let out_path : OutName :=
        { stem := "guardian_result_", ts := ⌊save_time t0 inferTime saveGap⌋, ext := ".png" }
      { prog := 1, outImg := some res.annotated, rows := rows, meta := meta,
        download := some out_path,
        events := (5 / 100, "Initializing…") :: progressSteps ++ [(1, "Done ✅")],
        writes := [out_path] }

/-- `reset_all` (app.py lines 99–100): the 7-tuple wired to
`[inp, out_img, detections, meta, download, prog, page]`. -/
def reset_all :
    Option Img × Option Img × List (List String) × String × Option OutName × ℚ × String :=
  (none, none, [], "", none, 0, "upload")

/-- The UI stage: which tab of the `gr.Tabs` block is selected. -/
inductive Tab where
  | upload
  | processing
  | results
deriving DecidableEq, Repr

/-- The mutable UI surface: the selected tab, the upload input `inp`, the
result components `out_img` / `detections` / `meta` / `download`, the
progress slider `prog`, and the (write-only) `page` state. -/
structure UIState where
  selectedTab : Tab
  inp : Option Img
  outImg : Option Img
  detections : List (List String)
  meta : String
  download : Option OutName
  prog : ℚ
  page : String
deriving DecidableEq, Repr

/-- `go_processing` (app.py lines 143–144): selects the Processing tab and
zeroes the progress slider. -/
def go_processing (st : UIState) : UIState :=
  { st with selectedTab := Tab.processing, prog := 0 }

/-- `go_results` (app.py lines 146–147). -/
def go_results (st : UIState) : UIState :=
  { st with selectedTab := Tab.results }

/-- `go_upload` (app.py lines 149–150). -/
def go_upload (st : UIState) : UIState :=
  { st with selectedTab := Tab.upload }

/-- The second `detect_btn.click` wiring (app.py lines 159–164): run
`_run_detection` on `inp` and write its five results to
`[prog, out_img, detections, meta, download]`. -/
def apply_run_detection (MODEL_MODE : String) (model : Img → DetectorResult)
    (t0 inferTime saveGap : ℚ) (st : UIState) : UIState :=
  let o := _run_detection MODEL_MODE model t0 inferTime saveGap st.inp
  { st with
      prog := o.prog
      outImg := o.outImg
      detections := o.rows
      meta := o.meta
      download := o.download }

/-- One click of `detect_btn`: its three registered handlers
(app.py lines 152–171) in registration order — `go_processing`,
`_run_detection`, `go_results`.  All three fire on every click; none is
conditional on an image being present. -/
def detect_click (MODEL_MODE : String) (model : Img → DetectorResult)
    (t0 inferTime saveGap : ℚ) (st : UIState) : UIState :=
  go_results (apply_run_detection MODEL_MODE model t0 inferTime saveGap (go_processing st))

/-- One click of `new_btn`: `reset_all` written to
`[inp, out_img, detections, meta, download, prog, page]`
(app.py lines 173–178), then `go_upload` (line 179). -/
def new_click (st : UIState) : UIState :=
  match reset_all with
  | (i, oi, det, m, dl, p, pg) =>
      go_upload { st with
                    inp := i
                    outImg := oi
                    detections := det
                    meta := m
                    download := dl
                    prog := p
                    page := pg }

/-- A detector run where `results[0].boxes` is Python `None`. -/
def demoModel : Img → DetectorResult :=
  fun _ => { names := [], boxes := none, annotated := 0 }

/-- A detector run that returns an empty box list. -/
def emptyBoxesModel : Img → DetectorResult :=
  fun _ => { names := [], boxes := some [], annotated := 0 }

/-- The detector of the two-object scenario: class 0 ↦ knife at 0.91,
class 1 ↦ gun at 0.77, in that output order. -/
def knifeGunModel : Img → DetectorResult :=
  fun _ =>
    { names := [(0, "knife"), (1, "gun")],
      boxes := some [⟨0, 91 / 100⟩, ⟨1, 77 / 100⟩],
      annotated := 0 }

/-! ## Helper lemmas -/

theorem floor_le_roundHalfEven (q : ℚ) : ⌊q⌋ ≤ roundHalfEven q := by
  unfold roundHalfEven
  split_ifs <;> omega

theorem roundHalfEven_bounds (q : ℚ) :
    q - 1 / 2 ≤ (roundHalfEven q : ℚ) ∧ (roundHalfEven q : ℚ) ≤ q + 1 / 2 := by
  have h1 : (⌊q⌋ : ℚ) ≤ q := Int.floor_le q
  have h2 : q < ⌊q⌋ + 1 := Int.lt_floor_add_one q
  unfold roundHalfEven
  split_ifs with ha hb hc <;> constructor <;> push_cast <;> linarith

theorem formatPct_91 : formatPct (91 / 100) = "91.0%" := by
  have h : roundHalfEven ((91 : ℚ) / 100 * 100 * 10) = 910 := by
    norm_num [roundHalfEven]
  simp only [formatPct, fmtFixed1, h]
  rfl

theorem formatPct_77 : formatPct (77 / 100) = "77.0%" := by
  have h : roundHalfEven ((77 : ℚ) / 100 * 100 * 10) = 770 := by
    norm_num [roundHalfEven]
  simp only [formatPct, fmtFixed1, h]
  rfl

theorem formatPct_873 : formatPct (873 / 1000) = "87.3%" := by
  have h : roundHalfEven ((873 : ℚ) / 1000 * 100 * 10) = 873 := by
    norm_num [roundHalfEven]
  simp only [formatPct, fmtFixed1, h]
  rfl

theorem run_detection_writes (MODEL_MODE : String) (model : Img → DetectorResult)
    (t0 inferTime saveGap : ℚ) (img : Img) :
    (_run_detection MODEL_MODE model t0 inferTime saveGap (some img)).writes =
      [⟨"guardian_result_", ⌊save_time t0 inferTime saveGap⌋, ".png"⟩] := rfl

theorem rows_of_length_pos (names : Names) (boxes : Option (List Box)) :
    1 ≤ (rows_of names boxes).length := by
  cases boxes with
  | none => simp [rows_of]
  | some bs =>
      cases bs with
      | nil => simp [rows_of]
      | cons b tl => simp [rows_of]

/-! ## The claims -/

/-- C5: the reset ("New Scan") action always returns the workflow to the
Upload stage with the session image cleared, the detections table empty,
the status text empty, no download link, and progress 0, regardless of the
prior state. -/
theorem claim5_reset (st : UIState) :
    new_click st = ⟨Tab.upload, none, none, [], "", none, 0, "upload"⟩ := rfl

/-- C9: at startup `load_model` checks whether the local weights file
exists: if so the model is loaded from that path and the status records a
local model in use; otherwise it is loaded from the generic pretrained
identifier and the status records demo mode because local weights were not
found. -/
theorem claim9_model_loader :
    load_model true = (WEIGHTS, "✅ Using local model: weights/best.pt") ∧
    load_model false =
      ("yolov8n.pt", "⚠️ Demo mode: weights/best.pt not found. Falling back to yolov8n.pt") :=
  ⟨rfl, rfl⟩

/-- C6: a detect call with a supplied image emits exactly the progress
checkpoints 5%, 15%, 35%, 55%, 75%, 90%, 100%, each paired with its phase
label, as one sequential list of events in strictly increasing order. -/
theorem claim6_progress_checkpoints (MODEL_MODE : String) (model : Img → DetectorResult)
    (t0 inferTime saveGap : ℚ) (img : Img) :
    (_run_detection MODEL_MODE model t0 inferTime saveGap (some img)).events =
      [(5 / 100, "Initializing…"), (15 / 100, "Pre-processing…"),
       (35 / 100, "Running inference…"), (55 / 100, "Extracting detections…"),
       (75 / 100, "Rendering bounding boxes…"), (90 / 100, "Finalizing output…"),
       (1, "Done ✅")] ∧
    List.Chain' (fun a b : ℚ => a < b)
      ((_run_detection MODEL_MODE model t0 inferTime saveGap (some img)).events.map Prod.fst) := by
  refine ⟨rfl, ?_⟩
  have h : (_run_detection MODEL_MODE model t0 inferTime saveGap (some img)).events.map Prod.fst =
      [5 / 100, 15 / 100, 35 / 100, 55 / 100, 75 / 100, 90 / 100, 1] := rfl
  rw [h]
  norm_num [List.chain'_cons]

/-- C10: `_run_detection` with no supplied image returns the 5-tuple
(0, None, [], "Please upload an image first.", None), and through the click
wiring these overwrite the previously displayed progress, annotated image,
table, status and download link with empty values. -/
theorem claim10_no_image_tuple (MODEL_MODE : String) (model : Img → DetectorResult)
    (t0 inferTime saveGap : ℚ) :
    _run_detection MODEL_MODE model t0 inferTime saveGap none =
      { prog := 0, outImg := none, rows := [], meta := "Please upload an image first.",
        download := none, events := [], writes := [] } ∧
    ∀ st : UIState, st.inp = none →
      apply_run_detection MODEL_MODE model t0 inferTime saveGap st =
        { st with
            prog := 0
            outImg := none
            detections := []
            meta := "Please upload an image first."
            download := none } := by
  refine ⟨rfl, fun st h => ?_⟩
  obtain ⟨tb, i, oi, det, m, dl, p, pg⟩ := st
  have h2 : i = none := h
  subst h2
  rfl

/-- C10 witness: a prior Results state is overwritten with the empty
values and the validation message. -/
theorem claim10_no_image_tuple_witness :
    apply_run_detection "m" demoModel 0 0 0
        ⟨Tab.results, none, some 5, [["knife", "91.0%"]], "old status",
         some ⟨"guardian_result_", 7, ".png"⟩, 1, "upload"⟩ =
      ⟨Tab.results, none, none, [], "Please upload an image first.", none, 0, "upload"⟩ :=
  (claim10_no_image_tuple "m" demoModel 0 0 0).2
    ⟨Tab.results, none, some 5, [["knife", "91.0%"]], "old status",
     some ⟨"guardian_result_", 7, ".png"⟩, 1, "upload"⟩ rfl

/-- C1 counterexample: clicking Detect with no image does not keep the
workflow on the Upload stage.  The validation message is produced, but the
unconditional `go_processing` and `go_results` click handlers still move
the selected tab, which ends on Results. -/
theorem claim1_counterexample :
    (detect_click "m" demoModel 0 0 0
        ⟨Tab.upload, none, none, [], "", none, 0, "upload"⟩).meta =
      "Please upload an image first." ∧
    (detect_click "m" demoModel 0 0 0
        ⟨Tab.upload, none, none, [], "", none, 0, "upload"⟩).selectedTab = Tab.results ∧
    Tab.results ≠ Tab.upload :=
  ⟨rfl, rfl, fun h => Tab.noConfusion h⟩

/-- C1 (amended): a detect click with no supplied image reports the
validation message "Please upload an image first." and clears the result
components, but the stage still transitions: the unconditional tab handlers
leave the workflow on the Results stage, not on Upload. -/
theorem claim1_no_image_click (MODEL_MODE : String) (model : Img → DetectorResult)
    (t0 inferTime saveGap : ℚ) (st : UIState) (h : st.inp = none) :
    detect_click MODEL_MODE model t0 inferTime saveGap st =
      { st with
          selectedTab := Tab.results
          outImg := none
          detections := []
          meta := "Please upload an image first."
          download := none
          prog := 0 } := by
  obtain ⟨tb, i, oi, det, m, dl, p, pg⟩ := st
  have h2 : i = none := h
  subst h2
  rfl

/-- C1 witness: the amended statement at a concrete no-image state. -/
theorem claim1_no_image_click_witness :
    detect_click "m" demoModel 0 0 0 ⟨Tab.upload, none, some 3, [["x", "y"]], "s",
        some ⟨"guardian_result_", 4, ".png"⟩, 1, "upload"⟩ =
      ⟨Tab.results, none, none, [], "Please upload an image first.", none, 0, "upload"⟩ :=
  claim1_no_image_click "m" demoModel 0 0 0
    ⟨Tab.upload, none, some 3, [["x", "y"]], "s",
     some ⟨"guardian_result_", 4, ".png"⟩, 1, "upload"⟩ rfl

/-- C2: every completed scan writes exactly one file, and because the
timestamped name is taken at least one second (the five 0.2s sleeps) after
the start of the run, two sequential runs — the second starting no earlier
than the first one's save — never share a file name, so no prior result is
overwritten. -/
theorem claim2_unique_output_file (MODEL_MODE : String) (model : Img → DetectorResult)
    (t0 inferTime saveGap t0' inferTime' saveGap' : ℚ) (img img' : Img)
    (hi : 0 ≤ inferTime') (hs : 0 ≤ saveGap')
    (hseq : save_time t0 inferTime saveGap ≤ t0') :
    (_run_detection MODEL_MODE model t0 inferTime saveGap (some img)).writes.length = 1 ∧
    (_run_detection MODEL_MODE model t0' inferTime' saveGap' (some img')).writes.length = 1 ∧
    ∀ n, n ∈ (_run_detection MODEL_MODE model t0 inferTime saveGap (some img)).writes →
      n ∉ (_run_detection MODEL_MODE model t0' inferTime' saveGap' (some img')).writes := by
  have key : ⌊save_time t0 inferTime saveGap⌋ < ⌊save_time t0' inferTime' saveGap'⌋ := by
    have hle : save_time t0 inferTime saveGap + 1 ≤ save_time t0' inferTime' saveGap' := by
      unfold save_time at hseq ⊢
      linarith
    have h1 : ⌊save_time t0 inferTime saveGap + 1⌋ ≤ ⌊save_time t0' inferTime' saveGap'⌋ :=
      Int.floor_le_floor hle
    rw [Int.floor_add_one] at h1
    omega
  refine ⟨rfl, rfl, fun n hn hmem => ?_⟩
  rw [run_detection_writes, List.mem_singleton] at hn hmem
  rw [hn] at hmem
  have hts := congrArg OutName.ts hmem
  simp only at hts
  omega

/-- C2 witness: two concrete sequential runs, the second starting at the
first one's save time, write singleton files with different names. -/
theorem claim2_unique_output_file_witness :
    (_run_detection "m" demoModel 0 0 0 (some 0)).writes.length = 1 ∧
    (⟨"guardian_result_", 1, ".png"⟩ : OutName) ∉
      (_run_detection "m" demoModel 1 0 0 (some 0)).writes := by
  have h := claim2_unique_output_file "m" demoModel 0 0 0 1 0 0 0 0 le_rfl le_rfl
    (by norm_num [save_time])
  refine ⟨h.1, h.2.2 ⟨"guardian_result_", 1, ".png"⟩ ?_⟩
  rw [run_detection_writes, List.mem_singleton]
  have hsv : save_time 0 0 0 = 1 := by norm_num [save_time]
  rw [hsv]
  norm_num

/-- C3: a successful detect call always returns a table with at least one
row; when the detector reports no boxes (or a Python None), the sentinel
row ["None", "—"] is substituted. -/
theorem claim3_table_nonempty (MODEL_MODE : String) (model : Img → DetectorResult)
    (t0 inferTime saveGap : ℚ) (img : Img) :
    1 ≤ (_run_detection MODEL_MODE model t0 inferTime saveGap (some img)).rows.length ∧
    ((model img).boxes = none ∨ (model img).boxes = some [] →
      (_run_detection MODEL_MODE model t0 inferTime saveGap (some img)).rows =
        [["None", "—"]]) := by
  have hrows : (_run_detection MODEL_MODE model t0 inferTime saveGap (some img)).rows =
      rows_of (model img).names (model img).boxes := rfl
  constructor
  · rw [hrows]
    exact rows_of_length_pos _ _
  · intro h
    rw [hrows]
    rcases h with h | h <;> rw [h] <;> simp [rows_of]

/-- C3 witness: a detector returning an empty box list yields exactly the
sentinel table. -/
theorem claim3_table_nonempty_witness :
    (_run_detection "m" emptyBoxesModel 0 0 0 (some 0)).rows = [["None", "—"]] :=
  (claim3_table_nonempty "m" emptyBoxesModel 0 0 0 0).2 (Or.inr rfl)

/-- C4: for a confidence in [0,1], the displayed confidence cell is
"<number>.<1 digit>%": an integer part, a dot, one digit (the value
rounded to one decimal of confidence × 100, so at most 100.0), and
0.873 renders as "87.3%". -/
theorem claim4_confidence_format :
    (∀ conf : ℚ, 0 ≤ conf → conf ≤ 1 →
      (roundHalfEven (conf * 100 * 10)).toNat ≤ 1000 ∧
      (roundHalfEven (conf * 100 * 10)).toNat % 10 < 10 ∧
      formatPct conf =
        toString ((roundHalfEven (conf * 100 * 10)).toNat / 10) ++ "."
          ++ toString ((roundHalfEven (conf * 100 * 10)).toNat % 10) ++ "%" ∧
      conf * 1000 - 1 / 2 ≤ ((roundHalfEven (conf * 100 * 10)).toNat : ℚ) ∧
      ((roundHalfEven (conf * 100 * 10)).toNat : ℚ) ≤ conf * 1000 + 1 / 2) ∧
    formatPct (873 / 1000) = "87.3%" := by
  refine ⟨fun conf h0 h1 => ?_, formatPct_873⟩
  have hq : conf * 100 * 10 = conf * 1000 := by ring
  have hb := roundHalfEven_bounds (conf * 100 * 10)
  have hfl : (0 : ℤ) ≤ ⌊conf * 100 * 10⌋ := by
    apply Int.floor_nonneg.mpr
    have : (0 : ℚ) ≤ conf * 100 * 10 := by positivity
    exact this
  have hnn : (0 : ℤ) ≤ roundHalfEven (conf * 100 * 10) :=
    le_trans hfl (floor_le_roundHalfEven _)
  have hcast : ((roundHalfEven (conf * 100 * 10)).toNat : ℤ) =
      roundHalfEven (conf * 100 * 10) := Int.toNat_of_nonneg hnn
  have hnq : ((roundHalfEven (conf * 100 * 10)).toNat : ℚ) =
      ((roundHalfEven (conf * 100 * 10) : ℤ) : ℚ) := by
    exact_mod_cast congrArg (fun z : ℤ => (z : ℚ)) hcast
  have hub : ((roundHalfEven (conf * 100 * 10) : ℤ) : ℚ) < 1001 := by
    have h2 : conf * 100 * 10 ≤ 1000 := by linarith
    linarith [hb.2]
  have hub2 : roundHalfEven (conf * 100 * 10) < 1001 := by exact_mod_cast hub
  refine ⟨by omega, by omega, rfl, ?_, ?_⟩
  · rw [hnq]
    linarith [hb.1]
  · rw [hnq]
    linarith [hb.2]

/-- C4 witness: the general statement instantiated at confidence 0.873. -/
theorem claim4_confidence_format_witness :
    (roundHalfEven ((873 : ℚ) / 1000 * 100 * 10)).toNat ≤ 1000 ∧
    (roundHalfEven ((873 : ℚ) / 1000 * 100 * 10)).toNat % 10 < 10 ∧
    formatPct (873 / 1000) =
      toString ((roundHalfEven ((873 : ℚ) / 1000 * 100 * 10)).toNat / 10) ++ "."
        ++ toString ((roundHalfEven ((873 : ℚ) / 1000 * 100 * 10)).toNat % 10) ++ "%" ∧
    (873 : ℚ) / 1000 * 1000 - 1 / 2 ≤ ((roundHalfEven ((873 : ℚ) / 1000 * 100 * 10)).toNat : ℚ) ∧
    ((roundHalfEven ((873 : ℚ) / 1000 * 100 * 10)).toNat : ℚ) ≤ (873 : ℚ) / 1000 * 1000 + 1 / 2 :=
  claim4_confidence_format.1 (873 / 1000) (by norm_num) (by norm_num)

/-- C7: a nonempty detection list maps one row per box in the model's
output order, and the knife/gun scenario (0.91 then 0.77) yields exactly
[["knife","91.0%"], ["gun","77.0%"]]. -/
theorem claim7_row_order :
    (∀ (names : Names) (bs : List Box), bs ≠ [] →
      rows_of names (some bs) =
        bs.map (fun b => [labelOf names b.cls, formatPct b.conf])) ∧
    ∀ (MODEL_MODE : String) (t0 inferTime saveGap : ℚ) (img : Img),
      (_run_detection MODEL_MODE knifeGunModel t0 inferTime saveGap (some img)).rows =
        [["knife", "91.0%"], ["gun", "77.0%"]] := by
  constructor
  · intro names bs h
    cases bs with
    | nil => exact absurd rfl h
    | cons b tl => simp [rows_of]
  · intro MODEL_MODE t0 inferTime saveGap img
    have h : (_run_detection MODEL_MODE knifeGunModel t0 inferTime saveGap (some img)).rows =
        rows_of [(0, "knife"), (1, "gun")] (some [⟨0, 91 / 100⟩, ⟨1, 77 / 100⟩]) := rfl
    have h2 : rows_of [(0, "knife"), (1, "gun")] (some [⟨0, 91 / 100⟩, ⟨1, 77 / 100⟩]) =
        [["knife", formatPct (91 / 100)], ["gun", formatPct (77 / 100)]] := rfl
    rw [h, h2, formatPct_91, formatPct_77]

/-- C7 witness: the order-preservation statement at the concrete two-box
scenario. -/
theorem claim7_row_order_witness :
    rows_of [(0, "knife"), (1, "gun")] (some [⟨0, 91 / 100⟩, ⟨1, 77 / 100⟩]) =
      List.map (fun b : Box => [labelOf [(0, "knife"), (1, "gun")] b.cls, formatPct b.conf])
        [⟨0, 91 / 100⟩, ⟨1, 77 / 100⟩] :=
  claim7_row_order.1 [(0, "knife"), (1, "gun")] [⟨0, 91 / 100⟩, ⟨1, 77 / 100⟩] (by simp)

/-- C8: the displayed label is the label table's entry for the class id
when present, the numeric id rendered as a string when absent, and each
detected box contributes its row to the displayed table. -/
theorem claim8_label_fallback :
    (∀ (names : Names) (clsId : ℕ) (l : String),
      names.lookup clsId = some l → labelOf names clsId = l) ∧
    (∀ (names : Names) (clsId : ℕ),
      names.lookup clsId = none → labelOf names clsId = toString clsId) ∧
    ∀ (names : Names) (bs : List Box) (b : Box), b ∈ bs →
      [labelOf names b.cls, formatPct b.conf] ∈ rows_of names (some bs) := by
  refine ⟨fun names c l h => ?_, fun names c h => ?_, fun names bs b hb => ?_⟩
  · unfold labelOf
    rw [h]
  · unfold labelOf
    rw [h]
  · cases bs with
    | nil => cases hb
    | cons x tl =>
        have h : rows_of names (some (x :: tl)) =
            (x :: tl).map (fun b => [labelOf names b.cls, formatPct b.conf]) := by
          simp [rows_of]
        rw [h]
        exact List.mem_map_of_mem _ hb

/-- C8 witness: a mapped id, an unmapped id, and a concrete box whose row
appears in the table. -/
theorem claim8_label_fallback_witness :
    labelOf [(0, "knife")] 0 = "knife" ∧
    labelOf [(0, "knife")] 3 = toString 3 ∧
    [labelOf [(0, "knife")] 0, formatPct (91 / 100)] ∈
      rows_of [(0, "knife")] (some [⟨0, 91 / 100⟩]) :=
  ⟨claim8_label_fallback.1 [(0, "knife")] 0 "knife" rfl,
   claim8_label_fallback.2.1 [(0, "knife")] 3 rfl,
   claim8_label_fallback.2.2 [(0, "knife")] [⟨0, 91 / 100⟩] ⟨0, 91 / 100⟩
     (List.mem_singleton_self _)⟩

end Guardian
